import Mathlib

/-!
Verification of the SmartCity SensorBridge Partheland core against its
natural-language specification.  The Python sources under
`custom_components/sensorbridge_partheland/` are shallowly embedded:
Python/JSON values become the inductive `PyVal`, Python dicts become
association lists with distinct keys (as produced by `json.loads`),
stateful operations pass their state explicitly, and fallible paths
return `Option`.  String scanning is implemented over `List Char` so
that every definition evaluates by kernel reduction.
-/

namespace SensorBridge

/-- Model of a Python value as produced by `json.loads` (plus `None`).
Dicts are association lists; `json.loads` yields string keys and, for
duplicate keys, keeps only the last one, so the lists representing dicts
have pairwise distinct keys. -/
inductive PyVal where
  | pyInt (n : Int)
  | pyFloat (q : Rat)
  | pyBool (b : Bool)
  | pyStr (s : String)
  | pyList (xs : List PyVal)
  | pyDict (kvs : List (String × PyVal))
  | pyNone

open PyVal

/-- Python truthiness (`if not value`): zero numbers, `False`, empty
strings, empty containers and `None` are falsy. -/
def PyVal.truthy : PyVal → Bool
  | pyInt n => n != 0
  | pyFloat q => q != 0
  | pyBool b => b
  | pyStr s => s != ""
  | pyList xs => !xs.isEmpty
  | pyDict kvs => !kvs.isEmpty
  | pyNone => false

/-- The check `isinstance(value, (int, float))` used by the field filter of the parser.  In Python, `bool` is a subclass of `int`, so boolean values
pass this check. -/
def isinstance_int_float : PyVal → Bool
  | pyInt _ => true
  | pyFloat _ => true
  | pyBool _ => true
  | _ => false

/-- A JSON value is numeric in the sense of the specification text
("numeric JSON value"): a JSON number, i.e. an int or a float; JSON
booleans are not numbers.  This is the predicate described by the words of the spec, kept separate from `isinstance_int_float`, which is what the
source code actually tests. -/
def isNumericJson : PyVal → Bool
  | pyInt _ => true
  | pyFloat _ => true
  | _ => false

/-- The numeric reading Python gives a value (`True == 1`, `False == 0`). -/
def pyNumericValue : PyVal → Option Rat
  | pyInt n => some (n : Rat)
  | pyFloat q => some q
  | pyBool b => some (if b then 1 else 0)
  | _ => none

/-! Character-list string utilities (kernel-reducible replacements for
`str.split`, `str.startswith`, `str.endswith`, `sub in str`,
`str.lower`, `str.isdigit`). -/

/-- Does the char list begin with the given segment? (`str.startswith`) -/
def charsStartWith : List Char → List Char → Bool
  | _, [] => true
  | [], _ :: _ => false
  | c :: cs, d :: ds => c == d && charsStartWith cs ds

/-- Does the char list end with the given segment? (`str.endswith`) -/
def charsEndWith (s seg : List Char) : Bool :=
  charsStartWith s.reverse seg.reverse

/-- Does `sub` occur somewhere in `s`? (Python `sub in s`) -/
def charsContainSub (s sub : List Char) : Bool :=
  match s with
  | [] => sub.isEmpty
  | _ :: rest => charsStartWith s sub || charsContainSub rest sub

/-- `topic.split("/")`: split a char list at every slash. -/
def splitOnSlash : List Char → List (List Char)
  | [] => [[]]
  | c :: rest =>
    match splitOnSlash rest with
    | [] => [[]]
    | g :: gs => if c == '/' then [] :: g :: gs else (c :: g) :: gs

def strStartWith (s seg : String) : Bool := charsStartWith s.toList seg.toList

def strEndWith (s seg : String) : Bool := charsEndWith s.toList seg.toList

def strContainSub (s sub : String) : Bool := charsContainSub s.toList sub.toList

def strLower (s : String) : String := String.mk (s.toList.map Char.toLower)

example : strContainSub "field_RSSI_2" "rssi" = false := by decide
example : strContainSub (strLower "field_RSSI_2") "rssi" = true := by decide
example : splitOnSlash "senseBox:home/median/Naunhof".toList =
    ["senseBox:home".toList, "median".toList, "Naunhof".toList] := by decide
example : strStartWith "senseBox:home/abc" "senseBox:home/" = true := by decide
example : PyVal.truthy (pyDict []) = false := by decide
example : isinstance_int_float (pyBool true) = true := by decide

/-! Catalog records, projected from the JSON catalog.  A missing `id`/`location` key of a device object is `Option.none`; `sensors` and
`topic_pattern` carry the `.get(..., default)` defaults of the source
(`[]` and `""`). -/

/-- One entry of `known_devices.MedianEntities` as used by the parser. -/
structure MedianEntity where
  id : Option String
  location : Option String
  topic_pattern : String
  sensors : List String

/-- One device object of a `known_devices` category. -/
structure KnownDevice where
  id : Option String
  sensors : List String

/-- Projection of the `parsing` section of the catalog, with the `.get`
defaults of the source baked in (`_parse_sensebox_message`,
`_parse_specialized_message`, `_is_median_topic`). -/
structure ParsingConfig where
  sensebox_median_topic_pattern : String
  sensebox_data_path : String
  specialized_data_path : String
  ignore_rssi_only : Bool

/-- The `parsing` configuration obtained when the catalog has no
`parsing` section: every `.get` falls back to its default. -/
def defaultParsingConfig : ParsingConfig :=
  ⟨"senseBox:home/median", "fields", "fields", true⟩

/-- `ParserService._is_valid_topic`: the three accepted topic regexes
`^senseBox:home/[^/]+$`, `^senseBox:home/median/[^/]+$` and
`^sensoren/[^/]+$`, expressed via slash-splitting. -/
def is_valid_topic (topic : String) : Bool :=
  match splitOnSlash topic.toList with
  | [a, b] => (a == "senseBox:home".toList || a == "sensoren".toList) && !b.isEmpty
  | [a, b, c] => a == "senseBox:home".toList && b == "median".toList && !c.isEmpty
  | _ => false

/-- `ParserService._get_topic_type`. -/
def get_topic_type (topic : String) : String :=
  if strStartWith topic "senseBox:home" then "sensebox"
  else if strStartWith topic "sensoren" then "specialized_sensors"
  else "unknown"

/-- `ParserService._extract_device_id_from_topic`: the last
slash-separated segment (`topic.split("/")[-1]`). -/
def extract_device_id_from_topic (topic : String) : Option String :=
  if strStartWith topic "senseBox:home/" || strStartWith topic "sensoren/" then
    some (String.mk ((splitOnSlash topic.toList).getLastD []))
  else none

/-- `ParserService._is_median_topic`, with the median detection pattern
already resolved into the `ParsingConfig`. -/
def is_median_topic (pc : ParsingConfig) (topic : String) : Bool :=
  strStartWith topic pc.sensebox_median_topic_pattern

/-- `ParserService._map_median_location_to_id`: the first catalog entry
whose `id` or `location` equals the token supplies the canonical id
(`entity.get("id", location_or_id)`); with no matching entry the token
is returned unchanged. -/
def map_median_location_to_id (medians : List MedianEntity)
    (location_or_id : String) : String :=
  match medians.find? (fun e =>
      e.id == some location_or_id || e.location == some location_or_id) with
  | some e => e.id.getD location_or_id
  | none => location_or_id

/-- Median branch of `ParserService._get_configured_sensors_for_device`:
per entity, in order: id match, location match, `median_<location>`
reconstruction, topic-pattern suffix match. -/
def get_configured_sensors_median (medians : List MedianEntity)
    (device_id : String) : Option (List String) :=
  match medians with
  | [] => none
  | e :: rest =>
    if e.id == some device_id then some e.sensors
    else if e.location == some device_id then some e.sensors
    else if strStartWith device_id "median_" &&
        e.location == some (String.mk (device_id.toList.drop 7)) then some e.sensors
    else if strEndWith e.topic_pattern ("/" ++ device_id) then some e.sensors
    else get_configured_sensors_median rest device_id

/-- Linear scan of the device list of one category for an id match
(`device.get("id") == device_id`). -/
def find_device_sensors (devs : List KnownDevice) (device_id : String) :
    Option (List String) :=
  match devs.find? (fun d => d.id == some device_id) with
  | some d => some d.sensors
  | none => none

/-- Scan every non-`senseBox` category for the device id (the
`device_type == "specialized"` loop, where the caller filtered away the
`senseBox` key via `continue`). -/
def find_sensors_in_categories (cats : List (String × List KnownDevice))
    (device_id : String) : Option (List String) :=
  match cats with
  | [] => none
  | (_, devs) :: rest =>
    match find_device_sensors devs device_id with
    | some s => some s
    | none => find_sensors_in_categories rest device_id

/-- `ParserService._get_configured_sensors_for_device`.  `known` is the
`known_devices` section of the catalog as an ordered category→devices list. -/
def get_configured_sensors_for_device
    (known : List (String × List KnownDevice)) (medians : List MedianEntity)
    (device_id : String) (is_median : Bool) (device_type : Option String) :
    Option (List String) :=
  if is_median then get_configured_sensors_median medians device_id
  else
    match device_type with
    | some "sensebox" => find_device_sensors ((known.lookup "senseBox").getD []) device_id
    | some "specialized" =>
        find_sensors_in_categories
          (known.filter (fun kv => kv.1 != "senseBox")) device_id
    | _ =>
        match find_device_sensors ((known.lookup "senseBox").getD []) device_id with
        | some s => some s
        | none =>
            find_sensors_in_categories
              (known.filter (fun kv => kv.1 != "senseBox")) device_id

/-- `data.get(fields_path, {})`.  On a non-dict payload the `.get` of the source raises, the surrounding `except` returns `None`; returning an
empty (falsy) dict here produces the same `None` outcome. -/
def getFields (data : PyVal) (path : String) : PyVal :=
  match data with
  | pyDict kvs => (kvs.lookup path).getD (pyDict [])
  | _ => pyDict []

/-- The `if not fields` guard followed by `fields.items()`.  An empty or
otherwise falsy value returns `None`; a truthy non-dict would make
`.items()` raise, which the handler also turns into `None`. -/
def fieldsItems (fields : PyVal) : Option (List (String × PyVal)) :=
  match fields with
  | pyDict kvs => if kvs.isEmpty then none else some kvs
  | _ => none

/-- `ParserService._is_rssi_only_message`: at least one key containing
`"rssi"` (case-insensitively) and no key without it. -/
def is_rssi_only_message (fields : List (String × PyVal)) : Bool :=
  let rssi_fields := fields.filter (fun kv => strContainSub (strLower kv.1) "rssi")
  let non_rssi_fields := fields.filter (fun kv => !strContainSub (strLower kv.1) "rssi")
  rssi_fields.length > 0 && non_rssi_fields.length == 0

/-- Result shape of a successful parse: the dict
`device_id / device_type / topic / sensor_data / is_median` returned by
the two `_parse_*_message` methods. -/
structure ParsedMessage where
  device_id : String
  device_type : String
  topic : String
  sensor_data : List (String × PyVal)
  is_median : Bool

/-- `ParserService._parse_sensebox_message` over an already-decoded
JSON payload `data`. -/
def parse_sensebox_message (pc : ParsingConfig)
    (known : List (String × List KnownDevice)) (medians : List MedianEntity)
    (topic : String) (data : PyVal) : Option ParsedMessage :=
  match extract_device_id_from_topic topic with
  | none => none
  | some did0 =>
    if did0 == "" then none
    else
      let is_median := is_median_topic pc topic
      let device_id := if is_median then map_median_location_to_id medians did0 else did0
      let fields := if is_median then data else getFields data pc.sensebox_data_path
      match fieldsItems fields with
      | none => none
      | some items =>
        match get_configured_sensors_for_device known medians device_id is_median
            (some "sensebox") with
        | none => none
        | some configured =>
          if configured.isEmpty then none
          else
            let sensor_data := items.filter (fun kv =>
              isinstance_int_float kv.2 && configured.contains kv.1)
            if sensor_data.isEmpty then none
            else some ⟨device_id, "sensebox", topic, sensor_data, is_median⟩

/-- `ParserService._parse_specialized_message` over an already-decoded
JSON payload `data`. -/
def parse_specialized_message (pc : ParsingConfig)
    (known : List (String × List KnownDevice)) (medians : List MedianEntity)
    (topic : String) (data : PyVal) : Option ParsedMessage :=
  match extract_device_id_from_topic topic with
  | none => none
  | some did =>
    if did == "" then none
    else
      let fields := getFields data pc.specialized_data_path
      match fieldsItems fields with
      | none => none
      | some items =>
        if pc.ignore_rssi_only && is_rssi_only_message items then none
        else
          match get_configured_sensors_for_device known medians did false
              (some "specialized") with
          | none => none
          | some configured =>
            if configured.isEmpty then none
            else
              let sensor_data := items.filter (fun kv =>
                isinstance_int_float kv.2 && configured.contains kv.1)
              if sensor_data.isEmpty then none
              else some ⟨did, "specialized", topic, sensor_data, false⟩

/-- `ParserService.get_sensor_data`: dispatch on the topic type. -/
def get_sensor_data (pc : ParsingConfig)
    (known : List (String × List KnownDevice)) (medians : List MedianEntity)
    (topic : String) (data : PyVal) : Option ParsedMessage :=
  if get_topic_type topic == "sensebox" then
    parse_sensebox_message pc known medians topic data
  else if get_topic_type topic == "specialized_sensors" then
    parse_specialized_message pc known medians topic data
  else none

/-- `ParserService.parse_message` for a payload that decoded to the JSON
value `data`: `validate_message` additionally rejects empty payloads,
non-UTF-8 bytes and malformed JSON, all of which are upstream of the
decoded value modelled here; of its checks only the topic-pattern
validation remains. -/
def parse_message (pc : ParsingConfig)
    (known : List (String × List KnownDevice)) (medians : List MedianEntity)
    (topic : String) (data : PyVal) : Option ParsedMessage :=
  if is_valid_topic topic then get_sensor_data pc known medians topic data
  else none

/-! Embedding of `ConfigService` (config_service.py). -/

/-- The four required top-level catalog sections checked by
`load_config` and `validate_config`. -/
def required_config_keys : List String :=
  ["mqtt_config", "known_devices", "sensor_categories", "field_mapping"]

/-- `ConfigService.load_config` applied to an already-decoded top-level
JSON object: if any required key is missing the cached config is reset
to the empty dict (no partial catalog), otherwise the parsed object is
kept as-is. -/
def load_config (parsed : List (String × PyVal)) : List (String × PyVal) :=
  if required_config_keys.all (fun k => (parsed.lookup k).isSome) then parsed else []

/-- The Python expression `key in value` for the membership tests in
`validate_config`.  Dicts test keys, lists test elements, strings test
substrings; any other value raises `TypeError` (modelled as `none`,
which the surrounding `except` turns into `False`). -/
def pyContains (v : PyVal) (key : String) : Option Bool :=
  match v with
  | pyDict kvs => some (kvs.lookup key).isSome
  | pyList xs => some (xs.any fun x => match x with | pyStr s => s == key | _ => false)
  | pyStr s => some (strContainSub s key)
  | _ => none

/-- `ConfigService.validate_config`: required keys, then
`broker_url`/`topics` inside `mqtt_config`, then
`isinstance(known_devices, dict)`. -/
def validate_config (parsed : List (String × PyVal)) : Bool :=
  let config := load_config parsed
  if required_config_keys.all (fun k => (config.lookup k).isSome) then
    match config.lookup "mqtt_config" with
    | none => false
    | some mqtt =>
      match pyContains mqtt "broker_url", pyContains mqtt "topics" with
      | some true, some true =>
        match config.lookup "known_devices" with
        | some (pyDict _) => true
        | _ => false
      | _, _ => false
  else false

/-! Duration parsing (`ConfigService.get_availability_config` and its
inner `_parse_to_seconds`). -/

/-- State machine implementing `re.findall(r"(\d+)\s*([smh])", s)` for
this specific pattern: a maximal digit run, optional whitespace, then a
unit letter; a failed attempt resumes scanning at the character that
broke it (shorter digit runs can never succeed for this pattern, so the
greedy scan is exact). -/
inductive DurScan where
  | idle
  | num (v : Nat)
  | numSp (v : Nat)

/-- The scanner underlying `durationMatches`. -/
def scanDur : DurScan → List Char → List (Nat × Char)
  | _, [] => []
  | .idle, c :: rest =>
    if c.isDigit then scanDur (.num (c.toNat - 48)) rest
    else scanDur .idle rest
  | .num v, c :: rest =>
    if c.isDigit then scanDur (.num (v * 10 + (c.toNat - 48))) rest
    else if c.isWhitespace then scanDur (.numSp v) rest
    else if c == 's' || c == 'm' || c == 'h' then (v, c) :: scanDur .idle rest
    else scanDur .idle rest
  | .numSp v, c :: rest =>
    if c.isWhitespace then scanDur (.numSp v) rest
    else if c == 's' || c == 'm' || c == 'h' then (v, c) :: scanDur .idle rest
    else if c.isDigit then scanDur (.num (c.toNat - 48)) rest
    else scanDur .idle rest

/-- All `(\d+)\s*([smh])` matches of a char list, in order. -/
def durationMatches (cs : List Char) : List (Nat × Char) := scanDur .idle cs

/-- Seconds per duration unit (`s`/`m`/`h`). -/
def unitSeconds (u : Char) : Nat :=
  if u == 's' then 1 else if u == 'm' then 60 else 3600

/-- Python `str.strip()` (whitespace at both ends). -/
def charsStrip (cs : List Char) : List Char :=
  ((cs.dropWhile Char.isWhitespace).reverse.dropWhile Char.isWhitespace).reverse

/-- Python `str.isdigit()`: nonempty and all digits. -/
def pyIsDigitStr (cs : List Char) : Bool :=
  !cs.isEmpty && cs.all Char.isDigit

/-- Decimal value of a digit run. -/
def charsToNat (cs : List Char) : Nat :=
  cs.foldl (fun acc c => acc * 10 + (c.toNat - 48)) 0

/-- Python `int()` on a float truncates toward zero; on a reduced
fraction that is truncating integer division of numerator by
denominator. -/
def pyIntTrunc (q : Rat) : Int := Int.tdiv q.num (q.den : Int)

/-- The inner `_parse_to_seconds` of `get_availability_config`:
ints/floats are taken as seconds when positive; strings are stripped,
lowercased and scanned for `(\d+)\s*([smh])` components, a bare digit
string being interpreted as minutes; everything else (and every
non-positive result) is `None`.  in Python `bool` is an `int`
(`int(True) = 1`). -/
def parse_to_seconds : PyVal → Option Int
  | pyInt n => if n > 0 then some n else none
  | pyBool b => if b then some 1 else none
  | pyFloat q => let v := pyIntTrunc q; if v > 0 then some v else none
  | pyStr s =>
    let cs := (charsStrip s.toList).map Char.toLower
    if cs.isEmpty then none
    else
      let total :=
        (durationMatches cs).foldl (fun acc nm => acc + nm.1 * unitSeconds nm.2) 0
      let total := if total == 0 && pyIsDigitStr cs then charsToNat cs * 60 else total
      if total == 0 then none else some (total : Int)
  | _ => none

/-- Result of `get_availability_config`: the normalized availability
policy. -/
structure AvailabilityPolicy where
  default_stale_seconds : Option Int
  per_type : List (String × Int)
  per_device : List (String × Int)

/-- `availability.get(key, {}) or {}` followed by the `isinstance(...,
dict)` guard: only a dict value contributes entries. -/
def sectionEntries (availability : PyVal) (key : String) : List (String × PyVal) :=
  match availability with
  | pyDict kvs =>
    match kvs.lookup key with
    | some (pyDict es) => es
    | _ => []
  | _ => []

/-- The per-type / per-device normalization loop: keep entries whose
value parses to a truthy number of seconds, floored at 60. -/
def normalizeThresholds (entries : List (String × PyVal)) : List (String × Int) :=
  entries.filterMap fun kv =>
    match parse_to_seconds kv.2 with
    | some p => if p != 0 then some (kv.1, max 60 p) else none
    | none => none

/-- `dict.get(key)` in a context that then tests `is not None`: a stored
JSON `null` behaves like a missing key. -/
def pyGetNonNull (kvs : List (String × PyVal)) (k : String) : Option PyVal :=
  match kvs.lookup k with
  | some pyNone => none
  | r => r

/-- `ConfigService.get_availability_config` applied to the `availability`
section of the catalog. -/
def get_availability_config (availability : PyVal) : AvailabilityPolicy :=
  match availability with
  | pyDict kvs =>
    let parsed_default :=
      match pyGetNonNull kvs "default" with
      | some v => parse_to_seconds v
      | none =>
        match pyGetNonNull kvs "default_stale_seconds" with
        | some v => parse_to_seconds v
        | none => none
    let d :=
      match parsed_default with
      | some p => if p != 0 then some (max 60 p) else none
      | none => none
    ⟨d, normalizeThresholds (sectionEntries availability "per_type"),
      normalizeThresholds (sectionEntries availability "per_device")⟩
  | _ => ⟨none, [], []⟩

/-! Catalog queries over raw device dicts (`get_device_by_id`,
`get_median_by_id`, `get_devices_by_type`).  These run on the raw
config, so devices stay association lists here; `get_device_by_id`
mutates the found device in place (`device["type"] = device_type`), so
it is modelled as a state transformer over the `known_devices`
section. -/

/-- A raw device object (a Python dict from the catalog). -/
def RawDevice := List (String × PyVal)

/-- The raw `known_devices` section: category name → list of device
dicts (the source guards `isinstance(device_list, list)`; JSON catalogs
satisfy it, so the model types it away). -/
def KnownRaw := List (String × List RawDevice)

/-- Python dict assignment `d[k] = v`: overwrite in place if the key
exists, else append. -/
def dictSet (d : List (String × PyVal)) (k : String) (v : PyVal) :
    List (String × PyVal) :=
  if (d.lookup k).isSome then d.map (fun kv => if kv.1 == k then (k, v) else kv)
  else d ++ [(k, v)]

/-- `device.get("id") == device_id` (a non-string or missing id never
equals a Python string). -/
def deviceIdMatches (d : RawDevice) (device_id : String) : Bool :=
  match d.lookup "id" with
  | some (pyStr s) => s == device_id
  | _ => false

/-- `device.get(key)` projected to a string. -/
def rawGetStr (d : RawDevice) (k : String) : Option String :=
  match d.lookup k with
  | some (pyStr s) => some s
  | _ => none

/-- Scan the device list of one category; on a match, set
`device["type"] = device_type` and return the (shared, mutated) device
together with the updated list. -/
def tag_find_in_list (dt : String) (device_id : String) :
    List RawDevice → Option (RawDevice × List RawDevice)
  | [] => none
  | d :: rest =>
    if deviceIdMatches d device_id then
      let d' := dictSet d "type" (pyStr dt)
      some (d', d' :: rest)
    else
      match tag_find_in_list dt device_id rest with
      | some (f, rest') => some (f, d :: rest')
      | none => none

/-- Scan all categories (step 1 of `get_device_by_id`). -/
def tag_find_in_known (device_id : String) :
    KnownRaw → Option (RawDevice × KnownRaw)
  | [] => none
  | (dt, devs) :: rest =>
    match tag_find_in_list dt device_id devs with
    | some (f, devs') => some (f, (dt, devs') :: rest)
    | none =>
      match tag_find_in_known device_id rest with
      | some (f, rest') => some (f, (dt, devs) :: rest')
      | none => none

/-- `ConfigService.get_median_entities`: the `MedianEntities` list with
each entry copied (`dict(item)`) and tagged `type = "median"`; the
copies leave the catalog untouched. -/
def get_median_entities_raw (known : KnownRaw) : List RawDevice :=
  ((known.lookup "MedianEntities").getD []).map
    (fun d => dictSet d "type" (pyStr "median"))

/-- `ConfigService.get_device_by_id` as a state transformer over the
`known_devices` section: a direct hit mutates the found device (its
`type` key is written through the shared reference), the median
fallback and the not-found path leave the catalog unchanged. -/
def get_device_by_id (known : KnownRaw) (device_id : String) :
    Option RawDevice × KnownRaw :=
  match tag_find_in_known device_id known with
  | some (f, known') => (some f, known')
  | none =>
    match (get_median_entities_raw known).find? (fun m =>
        rawGetStr m "id" == some device_id ||
        rawGetStr m "location" == some device_id) with
    | some m =>
      (some [("id", pyStr device_id),
             ("name", (m.lookup "name").getD (pyStr device_id)),
             ("type", pyStr "median")], known)
    | none => (none, known)

/-- `ConfigService.get_median_by_id`: linear scan of the (copied)
median entities; never touches the catalog. -/
def get_median_by_id (known : KnownRaw) (median_id : String) :
    Option RawDevice :=
  (get_median_entities_raw known).find? (fun m => rawGetStr m "id" == some median_id)

/-- `ConfigService.get_devices_by_type`: a plain projection. -/
def get_devices_by_type (known : KnownRaw) (device_type : String) :
    List RawDevice :=
  (known.lookup device_type).getD []

/-! Embedding of the availability logic (coordinator.py / sensor.py). -/

/-- Insert with overwrite into an int-valued dict (Python dict
comprehension semantics: a later duplicate key wins). -/
def dictInsertInt (d : List (String × Int)) (k : String) (v : Int) :
    List (String × Int) :=
  if (d.lookup k).isSome then d.map (fun kv => if kv.1 == k then (k, v) else kv)
  else d ++ [(k, v)]

/-- Coordinator startup: `{str(k).lower(): int(v) for k, v in
raw_per_type.items()}` — per-type keys are lowercased when the
availability policy is loaded. -/
def load_per_type_stale (raw : List (String × Int)) : List (String × Int) :=
  raw.foldl (fun acc kv => dictInsertInt acc (strLower kv.1) kv.2) []

/-- `SensorBridgeCoordinator.get_effective_stale_seconds`: per-device
override, else per-type override for a truthy device type (queried
lowercased against the lowercased table), else the default. -/
def get_effective_stale_seconds (per_device per_type : List (String × Int))
    (default_stale : Int) (device_id : String) (device_type : Option String) : Int :=
  match per_device.lookup device_id with
  | some v => v
  | none =>
    match device_type with
    | some dt =>
      if dt != "" then
        match per_type.lookup (strLower dt) with
        | some v => v
        | none => default_stale
      else default_stale
    | none => default_stale

/-- The meta-entity branch of `SensorBridgeSensor.native_value`:
`"Offline"` when the transport is down, `"Veraltet"` (stale) when no
reading was recorded or the monotonic age exceeds the threshold,
`"Online"` otherwise.  `now` and `last_seen` are monotonic clock
readings. -/
def native_value_meta (mqtt_connected : Bool) (last_seen : Option Rat)
    (stale_after : Int) (now : Rat) : String :=
  if !mqtt_connected then "Offline"
  else
    match last_seen with
    | none => "Veraltet"
    | some t => if now - t ≤ (stale_after : Rat) then "Online" else "Veraltet"

/-! Embedding of the MQTT reconnect backoff and the lifecycle event
queue (mqtt_service.py).  The backoff arithmetic runs on Python floats;
it is modelled with exact rationals (the literal `1.2` becomes `6/5`),
which preserves the structure of the delay sequence. -/

/-- `self._reconnect_delay = 3` (initial value and reset-on-success). -/
def reconnect_initial_delay : Rat := 3

/-- The backoff cap (`min(..., 30)`). -/
def reconnect_backoff_cap : Rat := 30

/-- The backoff factor (`self._reconnect_delay * 1.2`). -/
def reconnect_backoff_factor : Rat := 6 / 5

/-- Delay update after a failed reconnect attempt:
`self._reconnect_delay = min(self._reconnect_delay * 1.2, 30)`. -/
def reconnect_fail_update (d : Rat) : Rat :=
  min (d * reconnect_backoff_factor) reconnect_backoff_cap

/-- Delay update after a successful reconnect:
`self._reconnect_delay = 3`. -/
def reconnect_success_update (_d : Rat) : Rat := reconnect_initial_delay

/-- The delay slept before the next reconnect attempt when the last `n`
attempts all failed (and no success intervened). -/
def delay_after_failures (n : Nat) : Rat :=
  reconnect_fail_update^[n] reconnect_initial_delay

/-- A connection-lifecycle event: `("connect", None)` or
`("disconnect", rc)`. -/
def MqttEvent := String × Option Int

/-- `self._event_queue = asyncio.Queue()` — constructed with the
default `maxsize=0`, i.e. without a bound. -/
def event_queue_maxsize : Nat := 0

/-- `asyncio.Queue` fullness: only a queue with positive `maxsize` can
be full. -/
def queue_full (maxsize : Nat) (q : List MqttEvent) : Bool :=
  decide (0 < maxsize) && decide (maxsize ≤ q.length)

/-- `put_nowait` as used by `_queue_event`: on a full queue the
`QueueFull` branch of `_queue_event` logs and drops the event it was
asked to enqueue, leaving the queue as it was; otherwise the event is
appended at the tail. -/
def put_nowait (maxsize : Nat) (q : List MqttEvent) (e : MqttEvent) :
    List MqttEvent :=
  if queue_full maxsize q then q else q ++ [e]

/-- `MQTTService._queue_event` acting on the queue owned by the service. -/
def queue_event (q : List MqttEvent) (e : MqttEvent) : List MqttEvent :=
  put_nowait event_queue_maxsize q e

/-! Shared helper lemmas. -/

/-- The backoff factor 6/5 is nonnegative. -/
theorem reconnect_factor_nonneg : (0 : Rat) ≤ reconnect_backoff_factor := by
  norm_num [reconnect_backoff_factor]

/-- The backoff factor 6/5 is at least one. -/
theorem reconnect_factor_one_le : (1 : Rat) ≤ reconnect_backoff_factor := by
  norm_num [reconnect_backoff_factor]

/-- Closed form of the backoff iteration: after `n` consecutive
failures the delay is `min (3 * (6/5)^n) 30`. -/
theorem delay_after_failures_closed (n : Nat) :
    delay_after_failures n =
      min (reconnect_initial_delay * reconnect_backoff_factor ^ n) reconnect_backoff_cap := by
  induction n with
  | zero =>
    rw [delay_after_failures, Function.iterate_zero_apply, pow_zero, mul_one,
      min_eq_left (by norm_num [reconnect_initial_delay, reconnect_backoff_cap])]
  | succ n ih =>
    rw [delay_after_failures, Function.iterate_succ_apply', ← delay_after_failures, ih,
      reconnect_fail_update,
      min_mul_of_nonneg _ _ reconnect_factor_nonneg, min_assoc,
      min_eq_right (by norm_num [reconnect_backoff_cap, reconnect_backoff_factor] :
        reconnect_backoff_cap ≤ reconnect_backoff_cap * reconnect_backoff_factor),
      mul_assoc, ← pow_succ]

/-- Every threshold surviving normalization is at least the 60 s floor. -/
theorem normalizeThresholds_floor {entries : List (String × PyVal)} {k : String}
    {v : Int} (h : (k, v) ∈ normalizeThresholds entries) : 60 ≤ v := by
  rw [normalizeThresholds, List.mem_filterMap] at h
  obtain ⟨⟨k', v'⟩, _, hf⟩ := h
  split at hf
  · split at hf
    · rw [Option.some.injEq, Prod.mk.injEq] at hf
      rw [← hf.2]
      exact le_max_left _ _
    · exact absurd hf (by simp)
  · exact absurd hf (by simp)

/-- What `validate_config` accepts: the four required sections, a
`broker_url` and a `topics` entry inside `mqtt_config`, and a
`known_devices` section that is a dict. -/
theorem validate_config_characterization (parsed : List (String × PyVal)) :
    validate_config parsed = true ↔
      ((∀ k ∈ required_config_keys, (parsed.lookup k).isSome) ∧
       (∃ mqtt, parsed.lookup "mqtt_config" = some mqtt ∧
          pyContains mqtt "broker_url" = some true ∧
          pyContains mqtt "topics" = some true) ∧
       (∃ kvs, parsed.lookup "known_devices" = some (pyDict kvs))) := by
  constructor
  · intro h
    rw [validate_config, load_config] at h
    split at h
    case isTrue hall =>
      have hall' : ∀ k ∈ required_config_keys, (parsed.lookup k).isSome := by
        simpa [List.all_eq_true] using hall
      refine ⟨hall', ?_⟩
      split at h
      · exact absurd h (by simp)
      case h_2 mqtt hm =>
        split at h
        case h_2 => exact absurd h (by simp)
        case h_1 hb ht =>
          split at h
          case h_2 => exact absurd h (by simp)
          case h_1 kvs hk =>
            exact ⟨⟨mqtt, hm, hb, ht⟩, ⟨kvs, hk⟩⟩
    case isFalse hall =>
      rw [if_neg (by decide)] at h
      exact absurd h (by simp)
  · rintro ⟨h1, ⟨mqtt, hm, hb, ht⟩, ⟨kvs, hk⟩⟩
    have hall : (required_config_keys.all fun k => (parsed.lookup k).isSome) = true := by
      simpa [List.all_eq_true] using h1
    rw [validate_config, load_config, if_pos hall, if_pos hall]
    simp only [hm, hb, ht, hk]

/-- Looking up the overwritten key after a Python-style in-place dict
update finds the new value. -/
theorem lookup_map_overwrite (k : String) (v : PyVal) (d : List (String × PyVal))
    (h : (d.lookup k).isSome) :
    (d.map (fun kv => if kv.1 == k then (k, v) else kv)).lookup k = some v := by
  induction d with
  | nil => simp at h
  | cons kv rest ih =>
    obtain ⟨k1, v1⟩ := kv
    by_cases hk : k1 = k
    · subst hk
      simp [List.lookup_cons]
    · have hk1 : (k == k1) = false := beq_eq_false_iff_ne.mpr (Ne.symm hk)
      have hk2 : (k1 == k) = false := beq_eq_false_iff_ne.mpr hk
      rw [List.lookup_cons, hk1] at h
      simp only [List.map_cons, hk2, Bool.false_eq_true, if_false, List.lookup_cons, hk1]
      exact ih h

/-- `d[k] = v` makes `d[k]` read back `v`. -/
theorem dictSet_lookup_self (d : List (String × PyVal)) (k : String) (v : PyVal) :
    (dictSet d k v).lookup k = some v := by
  rw [dictSet]
  split
  case isTrue h => exact lookup_map_overwrite k v d h
  case isFalse h =>
    induction d with
    | nil => simp [List.lookup_cons]
    | cons kv rest ih =>
      obtain ⟨k1, v1⟩ := kv
      by_cases hk : k1 = k
      · exact absurd (by simp [hk, List.lookup_cons] :
          (((k1, v1) :: rest).lookup k).isSome = true) h
      · have hk1 : (k == k1) = false := beq_eq_false_iff_ne.mpr (Ne.symm hk)
        rw [List.cons_append, List.lookup_cons, hk1]
        refine ih ?_
        intro hsome
        exact h (by rw [List.lookup_cons, hk1]; exact hsome)

/-- The device returned by a `known_devices` hit carries the category
name in its `type` key: the in-place write is visible on the result. -/
theorem tag_find_in_list_type (dt device_id : String) (devs : List RawDevice)
    (f : RawDevice) (devs' : List RawDevice)
    (h : tag_find_in_list dt device_id devs = some (f, devs')) :
    f.lookup "type" = some (pyStr dt) := by
  induction devs generalizing devs' with
  | nil => simp [tag_find_in_list] at h
  | cons d rest ih =>
    rw [tag_find_in_list] at h
    split at h
    · rw [Option.some.injEq, Prod.mk.injEq] at h
      rw [← h.1]
      exact dictSet_lookup_self d "type" (pyStr dt)
    · split at h
      · rw [Option.some.injEq, Prod.mk.injEq] at h
        next f' rest' heq =>
          rw [h.1] at heq
          exact ih rest' heq
      · exact absurd h (by simp)

/-- Reduction of `_parse_sensebox_message` on a non-median topic once
every pipeline stage is fixed: the result is the allow-list/isinstance
filter of the payload fields, or `None` when that filter is empty. -/
theorem parse_sensebox_eq (pc : ParsingConfig)
    (known : List (String × List KnownDevice)) (medians : List MedianEntity)
    (topic : String) (data : PyVal) (did : String)
    (items : List (String × PyVal)) (configured : List String)
    (hex : extract_device_id_from_topic topic = some did)
    (hne : did ≠ "")
    (hmed : is_median_topic pc topic = false)
    (hfi : fieldsItems (getFields data pc.sensebox_data_path) = some items)
    (hcfg : get_configured_sensors_for_device known medians did false
      (some "sensebox") = some configured)
    (hcne : configured ≠ []) :
    parse_sensebox_message pc known medians topic data =
      (if (items.filter (fun kv =>
            isinstance_int_float kv.2 && configured.contains kv.1)).isEmpty then none
       else some ⟨did, "sensebox", topic,
          items.filter (fun kv => isinstance_int_float kv.2 && configured.contains kv.1),
          false⟩) := by
  have hne' : ¬((did == "") = true) := by simpa using hne
  rw [parse_sensebox_message]
  simp only [hex]
  rw [if_neg hne']
  have hce : configured.isEmpty = false := by simpa using hcne
  simp only [hmed, Bool.false_eq_true, if_false, hfi, hcfg, hce]

/-- Reduction of `_parse_sensebox_message` on a median topic once every
pipeline stage is fixed: the location token is mapped to the canonical
median id, the payload root supplies the fields, and the result goes
through the same allow-list/isinstance filter. -/
theorem parse_sensebox_median_eq (pc : ParsingConfig)
    (known : List (String × List KnownDevice)) (medians : List MedianEntity)
    (topic : String) (data : PyVal) (did : String)
    (items : List (String × PyVal)) (configured : List String)
    (hex : extract_device_id_from_topic topic = some did)
    (hne : did ≠ "")
    (hmed : is_median_topic pc topic = true)
    (hfi : fieldsItems data = some items)
    (hcfg : get_configured_sensors_for_device known medians
      (map_median_location_to_id medians did) true (some "sensebox") = some configured)
    (hcne : configured ≠ []) :
    parse_sensebox_message pc known medians topic data =
      (if (items.filter (fun kv =>
            isinstance_int_float kv.2 && configured.contains kv.1)).isEmpty then none
       else some ⟨map_median_location_to_id medians did, "sensebox", topic,
          items.filter (fun kv => isinstance_int_float kv.2 && configured.contains kv.1),
          true⟩) := by
  have hne' : ¬((did == "") = true) := by simpa using hne
  rw [parse_sensebox_message]
  simp only [hex]
  rw [if_neg hne']
  have hce : configured.isEmpty = false := by simpa using hcne
  simp only [hmed, if_true, hfi, hcfg, hce, Bool.false_eq_true, if_false]

/-- Reduction of `_parse_specialized_message` once every pipeline stage
is fixed, analogous to `parse_sensebox_eq`. -/
theorem parse_specialized_eq (pc : ParsingConfig)
    (known : List (String × List KnownDevice)) (medians : List MedianEntity)
    (topic : String) (data : PyVal) (did : String)
    (items : List (String × PyVal)) (configured : List String)
    (hex : extract_device_id_from_topic topic = some did)
    (hne : did ≠ "")
    (hfi : fieldsItems (getFields data pc.specialized_data_path) = some items)
    (hrssi : (pc.ignore_rssi_only && is_rssi_only_message items) = false)
    (hcfg : get_configured_sensors_for_device known medians did false
      (some "specialized") = some configured)
    (hcne : configured ≠ []) :
    parse_specialized_message pc known medians topic data =
      (if (items.filter (fun kv =>
            isinstance_int_float kv.2 && configured.contains kv.1)).isEmpty then none
       else some ⟨did, "specialized", topic,
          items.filter (fun kv => isinstance_int_float kv.2 && configured.contains kv.1),
          false⟩) := by
  have hne' : ¬((did == "") = true) := by simpa using hne
  rw [parse_specialized_message]
  simp only [hex]
  rw [if_neg hne']
  have hce : configured.isEmpty = false := by simpa using hcne
  simp only [hfi, hrssi, Bool.false_eq_true, if_false, hcfg, hce]

/-- Membership in the sensor-data filter: a field survives exactly when
it is present in the payload, passes `isinstance(value, (int, float))`,
and its name is allow-listed. -/
theorem mem_sensor_filter (items : List (String × PyVal)) (configured : List String)
    (k : String) (v : PyVal) :
    (k, v) ∈ items.filter (fun kv =>
        isinstance_int_float kv.2 && configured.contains kv.1) ↔
      ((k, v) ∈ items ∧ isinstance_int_float v = true ∧ k ∈ configured) := by
  rw [List.mem_filter]
  simp [List.contains, List.elem_iff, and_assoc]

/-! Concrete catalogs used by examples, witnesses and counterexamples. -/

/-- Median catalog of the spec example: id `median_Naunhof`, location
`Naunhof`. -/
def mediansNaunhof : List MedianEntity :=
  [⟨some "median_Naunhof", some "Naunhof", "senseBox:home/median/Naunhof",
    ["temperature"]⟩]

/-- A median catalog with no entry for Naunhof. -/
def mediansLeipzig : List MedianEntity :=
  [⟨some "median_Leipzig", some "Leipzig", "senseBox:home/median/Leipzig",
    ["temperature"]⟩]

/-- The round-trip device of the spec: sensors `temp` and `hum`. -/
def knownRT : List (String × List KnownDevice) :=
  [("senseBox", [⟨some "dev1", ["temp", "hum"]⟩])]

/-- A senseBox device allow-listing only `temp`. -/
def knownBool : List (String × List KnownDevice) :=
  [("senseBox", [⟨some "devB", ["temp"]⟩])]

/-- A specialized device allow-listing only `temp`. -/
def knownC6 : List (String × List KnownDevice) :=
  [("Temperature", [⟨some "devT", ["temp"]⟩])]

/-- A senseBox device allow-listing `rssi` itself. -/
def knownC6sb : List (String × List KnownDevice) :=
  [("senseBox", [⟨some "devS", ["rssi"]⟩])]

/-- A specialized device allow-listing `flag` and `note`. -/
def knownC10 : List (String × List KnownDevice) :=
  [("WaterLevel", [⟨some "devF", ["flag", "note"]⟩])]

/-- A raw `known_devices` section with one senseBox device and no
`type` key. -/
def knownRawEx : KnownRaw :=
  [("senseBox", [[("id", pyStr "dev1"), ("name", pyStr "Device 1")]])]

/-- A catalog with all four sections, `broker_url` and `topics`
present, but whose `known_devices` section is a list, not a dict. -/
def cfgListKnownDevices : List (String × PyVal) :=
  [("mqtt_config", pyDict [("broker_url", pyStr "wss://broker.example/mqtt"),
      ("topics", pyList [])]),
   ("known_devices", pyList []),
   ("sensor_categories", pyDict []),
   ("field_mapping", pyDict [])]

/-! Claim theorems. -/

/-- Claim C1 (counterexample): a parse on a recognized senseBox topic
for a cataloged device returns a `sensor_data` entry for the
allow-listed field `temp` whose JSON value is the boolean `true`, which
is not a numeric JSON value — so fields with non-numeric JSON values
can appear in the result, contrary to the claim. -/
theorem C1_boolean_leak_counterexample :
    parse_message defaultParsingConfig knownBool [] "senseBox:home/devB"
      (pyDict [("fields", pyDict [("temp", pyBool true)])]) =
      some ⟨"devB", "sensebox", "senseBox:home/devB", [("temp", pyBool true)], false⟩ ∧
    isNumericJson (pyBool true) = false := ⟨rfl, rfl⟩

/-- Claim C1 (amended): for every message on a recognized topic for a
cataloged device, the returned `sensor_data` contains exactly the
payload fields that are in the allow-list of the device and whose value
passes the `isinstance(value, (int, float))` check — numeric values and
booleans, since Python `bool` is an `int`; other fields never appear;
an empty filtered set yields `None`.  This covers all three recognized
message kinds — plain senseBox, median (fields at the payload root,
device id resolved through the median catalog) and specialized — and
the round-trip example of the spec holds, as does a median example. -/
theorem C1_parse_allowlist_filter :
    (∀ (pc : ParsingConfig) (known : List (String × List KnownDevice))
        (medians : List MedianEntity) (topic : String) (data : PyVal)
        (did : String) (items : List (String × PyVal)) (configured : List String)
        (r : ParsedMessage),
        extract_device_id_from_topic topic = some did → did ≠ "" →
        is_median_topic pc topic = false →
        fieldsItems (getFields data pc.sensebox_data_path) = some items →
        get_configured_sensors_for_device known medians did false
          (some "sensebox") = some configured →
        configured ≠ [] →
        parse_sensebox_message pc known medians topic data = some r →
        ∀ (k : String) (v : PyVal),
          (k, v) ∈ r.sensor_data ↔
            ((k, v) ∈ items ∧ isinstance_int_float v = true ∧ k ∈ configured)) ∧
    (∀ (pc : ParsingConfig) (known : List (String × List KnownDevice))
        (medians : List MedianEntity) (topic : String) (data : PyVal)
        (did : String) (items : List (String × PyVal)) (configured : List String),
        extract_device_id_from_topic topic = some did → did ≠ "" →
        is_median_topic pc topic = false →
        fieldsItems (getFields data pc.sensebox_data_path) = some items →
        get_configured_sensors_for_device known medians did false
          (some "sensebox") = some configured →
        configured ≠ [] →
        items.filter (fun kv =>
          isinstance_int_float kv.2 && configured.contains kv.1) = [] →
        parse_sensebox_message pc known medians topic data = none) ∧
    (∀ (pc : ParsingConfig) (known : List (String × List KnownDevice))
        (medians : List MedianEntity) (topic : String) (data : PyVal)
        (did : String) (items : List (String × PyVal)) (configured : List String)
        (r : ParsedMessage),
        extract_device_id_from_topic topic = some did → did ≠ "" →
        is_median_topic pc topic = true →
        fieldsItems data = some items →
        get_configured_sensors_for_device known medians
          (map_median_location_to_id medians did) true (some "sensebox") =
          some configured →
        configured ≠ [] →
        parse_sensebox_message pc known medians topic data = some r →
        ∀ (k : String) (v : PyVal),
          (k, v) ∈ r.sensor_data ↔
            ((k, v) ∈ items ∧ isinstance_int_float v = true ∧ k ∈ configured)) ∧
    (∀ (pc : ParsingConfig) (known : List (String × List KnownDevice))
        (medians : List MedianEntity) (topic : String) (data : PyVal)
        (did : String) (items : List (String × PyVal)) (configured : List String),
        extract_device_id_from_topic topic = some did → did ≠ "" →
        is_median_topic pc topic = true →
        fieldsItems data = some items →
        get_configured_sensors_for_device known medians
          (map_median_location_to_id medians did) true (some "sensebox") =
          some configured →
        configured ≠ [] →
        items.filter (fun kv =>
          isinstance_int_float kv.2 && configured.contains kv.1) = [] →
        parse_sensebox_message pc known medians topic data = none) ∧
    (∀ (pc : ParsingConfig) (known : List (String × List KnownDevice))
        (medians : List MedianEntity) (topic : String) (data : PyVal)
        (did : String) (items : List (String × PyVal)) (configured : List String)
        (r : ParsedMessage),
        extract_device_id_from_topic topic = some did → did ≠ "" →
        fieldsItems (getFields data pc.specialized_data_path) = some items →
        (pc.ignore_rssi_only && is_rssi_only_message items) = false →
        get_configured_sensors_for_device known medians did false
          (some "specialized") = some configured →
        configured ≠ [] →
        parse_specialized_message pc known medians topic data = some r →
        ∀ (k : String) (v : PyVal),
          (k, v) ∈ r.sensor_data ↔
            ((k, v) ∈ items ∧ isinstance_int_float v = true ∧ k ∈ configured)) ∧
    (∀ (pc : ParsingConfig) (known : List (String × List KnownDevice))
        (medians : List MedianEntity) (topic : String) (data : PyVal)
        (did : String) (items : List (String × PyVal)) (configured : List String),
        extract_device_id_from_topic topic = some did → did ≠ "" →
        fieldsItems (getFields data pc.specialized_data_path) = some items →
        (pc.ignore_rssi_only && is_rssi_only_message items) = false →
        get_configured_sensors_for_device known medians did false
          (some "specialized") = some configured →
        configured ≠ [] →
        items.filter (fun kv =>
          isinstance_int_float kv.2 && configured.contains kv.1) = [] →
        parse_specialized_message pc known medians topic data = none) ∧
    parse_message defaultParsingConfig knownRT [] "senseBox:home/dev1"
      (pyDict [("fields",
        pyDict [("temp", pyFloat (43/2)), ("hum", pyInt 55), ("battery", pyStr "ok")])]) =
      some ⟨"dev1", "sensebox", "senseBox:home/dev1",
        [("temp", pyFloat (43/2)), ("hum", pyInt 55)], false⟩ ∧
    parse_message defaultParsingConfig [] mediansNaunhof "senseBox:home/median/Naunhof"
      (pyDict [("temperature", pyInt 20), ("note", pyStr "x")]) =
      some ⟨"median_Naunhof", "sensebox", "senseBox:home/median/Naunhof",
        [("temperature", pyInt 20)], true⟩ := by
  refine ⟨fun pc known medians topic data did items configured r
      hex hne hmed hfi hcfg hcne hr k v => ?_,
    fun pc known medians topic data did items configured
      hex hne hmed hfi hcfg hcne hempty => ?_,
    fun pc known medians topic data did items configured r
      hex hne hmed hfi hcfg hcne hr k v => ?_,
    fun pc known medians topic data did items configured
      hex hne hmed hfi hcfg hcne hempty => ?_,
    fun pc known medians topic data did items configured r
      hex hne hfi hrssi hcfg hcne hr k v => ?_,
    fun pc known medians topic data did items configured
      hex hne hfi hrssi hcfg hcne hempty => ?_, rfl, rfl⟩
  · rw [parse_sensebox_eq pc known medians topic data did items configured
      hex hne hmed hfi hcfg hcne] at hr
    split at hr
    · exact absurd hr (by simp)
    · rw [Option.some.injEq] at hr
      rw [← hr]
      exact mem_sensor_filter items configured k v
  · rw [parse_sensebox_eq pc known medians topic data did items configured
      hex hne hmed hfi hcfg hcne, hempty]
    rfl
  · rw [parse_sensebox_median_eq pc known medians topic data did items configured
      hex hne hmed hfi hcfg hcne] at hr
    split at hr
    · exact absurd hr (by simp)
    · rw [Option.some.injEq] at hr
      rw [← hr]
      exact mem_sensor_filter items configured k v
  · rw [parse_sensebox_median_eq pc known medians topic data did items configured
      hex hne hmed hfi hcfg hcne, hempty]
    rfl
  · rw [parse_specialized_eq pc known medians topic data did items configured
      hex hne hfi hrssi hcfg hcne] at hr
    split at hr
    · exact absurd hr (by simp)
    · rw [Option.some.injEq] at hr
      rw [← hr]
      exact mem_sensor_filter items configured k v
  · rw [parse_specialized_eq pc known medians topic data did items configured
      hex hne hfi hrssi hcfg hcne, hempty]
    rfl

/-- Claim C1 witness: the empty-filter branch at a concrete input — a
payload whose only field is the non-allow-listed, non-numeric
`battery` parses to `None`. -/
theorem C1_parse_allowlist_filter_witness :
    parse_sensebox_message defaultParsingConfig knownRT [] "senseBox:home/dev1"
      (pyDict [("fields", pyDict [("battery", pyStr "ok")])]) = none :=
  C1_parse_allowlist_filter.2.1 defaultParsingConfig knownRT [] "senseBox:home/dev1"
    (pyDict [("fields", pyDict [("battery", pyStr "ok")])]) "dev1"
    [("battery", pyStr "ok")] ["temp", "hum"] rfl (by decide) rfl rfl rfl
    (by decide) rfl

/-- Claim C2: the meta-entity availability is `Offline` whenever the
transport is disconnected, `Veraltet` (stale) when connected with no
recorded reading or with a monotonic age strictly above the effective
threshold, `Online` otherwise; the effective threshold resolves
per-device first, then per-type case-insensitively (keys lowercased at
load, query lowercased at read), then the default; and the boundary
example (threshold 300 s, last seen 301 s ago, connected) is stale. -/
theorem C2_availability_derivation :
    (∀ (ls : Option Rat) (sa : Int) (now : Rat),
        native_value_meta false ls sa now = "Offline") ∧
    (∀ (sa : Int) (now : Rat), native_value_meta true Option.none sa now = "Veraltet") ∧
    (∀ (t now : Rat) (sa : Int),
        ((sa : Rat) < now - t → native_value_meta true (some t) sa now = "Veraltet") ∧
        (now - t ≤ (sa : Rat) → native_value_meta true (some t) sa now = "Online")) ∧
    (∀ (pd pt : List (String × Int)) (d : Int) (id : String) (dt : Option String)
        (v : Int),
        pd.lookup id = some v → get_effective_stale_seconds pd pt d id dt = v) ∧
    (∀ (pd pt : List (String × Int)) (d : Int) (id : String) (dt : String) (v : Int),
        pd.lookup id = none → dt ≠ "" → pt.lookup (strLower dt) = some v →
        get_effective_stale_seconds pd pt d id (some dt) = v) ∧
    (∀ (pd pt : List (String × Int)) (d : Int) (id : String) (dt : String),
        pd.lookup id = none → pt.lookup (strLower dt) = none →
        get_effective_stale_seconds pd pt d id (some dt) = d) ∧
    (∀ (pd pt : List (String × Int)) (d : Int) (id : String),
        pd.lookup id = none →
        get_effective_stale_seconds pd pt d id Option.none = d) ∧
    get_effective_stale_seconds [] (load_per_type_stale [("SenseBox", 900)]) 300 "dev"
      (some "sensebox") = 900 ∧
    native_value_meta true (some 0) 300 301 = "Veraltet" := by
  refine ⟨fun ls sa now => rfl, fun sa now => rfl,
    fun t now sa => ⟨fun h => ?_, fun h => ?_⟩,
    fun pd pt d id dt v h => ?_, fun pd pt d id dt v h1 h2 h3 => ?_,
    fun pd pt d id dt h1 h2 => ?_, fun pd pt d id h1 => ?_, rfl, ?_⟩
  · rw [native_value_meta]
    simp only [Bool.not_true, Bool.false_eq_true, if_false]
    rw [if_neg (not_le.mpr h)]
  · rw [native_value_meta]
    simp only [Bool.not_true, Bool.false_eq_true, if_false]
    rw [if_pos h]
  · simp only [get_effective_stale_seconds.eq_def, h]
  · simp only [get_effective_stale_seconds.eq_def, h1, h3]
    rw [if_pos (by simpa using h2)]
  · simp only [get_effective_stale_seconds.eq_def, h1, h2]
    by_cases hdt : dt = ""
    · rw [if_neg (by simp [hdt])]
    · rw [if_pos (by simpa using hdt)]
  · simp only [get_effective_stale_seconds.eq_def, h1]
  · rw [native_value_meta]
    norm_num

/-- Claim C2 witness: the per-device override at a concrete input. -/
theorem C2_availability_derivation_witness :
    get_effective_stale_seconds [("dev", 120)] [] 300 "dev" Option.none = 120 :=
  C2_availability_derivation.2.2.2.1 [("dev", 120)] [] 300 "dev" Option.none 120 rfl

/-- Claim C3 (counterexample): a catalog with all four required
sections present and both `broker_url` and `topics` inside
`mqtt_config` is still rejected, because its `known_devices` section is
a list — so the claimed "if and only if" condition is not sufficient
for a successful load. -/
theorem C3_known_devices_shape_counterexample :
    validate_config cfgListKnownDevices = false ∧
    (∀ k ∈ required_config_keys, (cfgListKnownDevices.lookup k).isSome) ∧
    (∃ mqtt, cfgListKnownDevices.lookup "mqtt_config" = some mqtt ∧
        pyContains mqtt "broker_url" = some true ∧
        pyContains mqtt "topics" = some true) :=
  ⟨by decide, by decide,
    ⟨pyDict [("broker_url", pyStr "wss://broker.example/mqtt"), ("topics", pyList [])],
      rfl, by decide, by decide⟩⟩

/-- Claim C3 (amended): catalog load-plus-validation succeeds iff the
four required top-level sections are present, the broker configuration
contains both `broker_url` and `topics`, and `known_devices` is a
mapping; and a single missing required section makes `load_config`
fail closed to the empty catalog (no partial catalog). -/
theorem C3_catalog_load_fail_closed :
    (∀ parsed : List (String × PyVal),
        validate_config parsed = true ↔
          ((∀ k ∈ required_config_keys, (parsed.lookup k).isSome) ∧
           (∃ mqtt, parsed.lookup "mqtt_config" = some mqtt ∧
              pyContains mqtt "broker_url" = some true ∧
              pyContains mqtt "topics" = some true) ∧
           (∃ kvs, parsed.lookup "known_devices" = some (pyDict kvs)))) ∧
    (∀ parsed : List (String × PyVal),
        (∃ k ∈ required_config_keys, (parsed.lookup k).isSome = false) →
        load_config parsed = []) := by
  refine ⟨validate_config_characterization, fun parsed h => ?_⟩
  obtain ⟨k, hk, hnone⟩ := h
  rw [load_config, if_neg ?_]
  simp only [List.all_eq_true]
  intro hall
  exact absurd (hall k hk) (by simp [hnone])

/-- Claim C3 witness: a catalog consisting only of `mqtt_config` loads
to the empty catalog. -/
theorem C3_catalog_load_fail_closed_witness :
    load_config [("mqtt_config", pyDict [])] = [] :=
  C3_catalog_load_fail_closed.2 [("mqtt_config", pyDict [])]
    ⟨"known_devices", by decide, rfl⟩

/-- Claim C4 (counterexample): with a catalog that has no entry whose
id or location is `Naunhof`, the token resolves to itself, not to the
claimed constructed fallback `median_Naunhof`. -/
theorem C4_fallback_counterexample :
    map_median_location_to_id mediansLeipzig "Naunhof" = "Naunhof" ∧
    "Naunhof" ≠ "median_" ++ "Naunhof" := ⟨rfl, by decide⟩

/-- Claim C4 (amended): median resolution scans the catalog in order
and returns the id of the first entry whose id or location equals the
token; when no entry matches, the token itself is returned unchanged
(no `median_` fallback id is constructed); and both spec-example
tokens `Naunhof` and `median_Naunhof` resolve to `median_Naunhof`. -/
theorem C4_median_resolution :
    (∀ (medians : List MedianEntity) (tok : String),
        (∀ e ∈ medians, e.id ≠ some tok ∧ e.location ≠ some tok) →
        map_median_location_to_id medians tok = tok) ∧
    (∀ (medians : List MedianEntity) (tok : String) (e : MedianEntity),
        e ∈ medians → (e.id = some tok ∨ e.location = some tok) →
        ∃ e' ∈ medians, (e'.id = some tok ∨ e'.location = some tok) ∧
          map_median_location_to_id medians tok = e'.id.getD tok) ∧
    map_median_location_to_id mediansNaunhof "Naunhof" = "median_Naunhof" ∧
    map_median_location_to_id mediansNaunhof "median_Naunhof" = "median_Naunhof" := by
  refine ⟨fun medians tok hnone => ?_, fun medians tok e he hmatch => ?_, rfl, rfl⟩
  · rw [map_median_location_to_id, List.find?_eq_none.mpr]
    intro e he
    have h := hnone e he
    simp [h.1, h.2]
  · rcases hfind : medians.find? (fun e =>
        e.id == some tok || e.location == some tok) with _ | e'
    · rw [List.find?_eq_none] at hfind
      exact absurd (by simpa using hmatch) (by simpa using hfind e he)
    · refine ⟨e', List.mem_of_find?_eq_some hfind, ?_, ?_⟩
      · have h := List.find?_some hfind
        simpa using h
      · rw [map_median_location_to_id, hfind]

/-- Claim C4 witness: the no-match branch applied to a concrete
catalog and token. -/
theorem C4_median_resolution_witness :
    map_median_location_to_id mediansLeipzig "Brandis" = "Brandis" :=
  C4_median_resolution.1 mediansLeipzig "Brandis" (by decide)

/-- Claim C5: the duration strings `1h30m`, `45m` and the bare digit
string `900` (read as minutes) parse to 5400 s, 2700 s and 54000 s;
unparseable or non-positive values parse to `None` and their policy
entries are dropped silently, so the default threshold prevails at
resolution; and every accepted value — default, per-type or
per-device — is floored at 60 s. -/
theorem C5_duration_parsing :
    parse_to_seconds (pyStr "1h30m") = some 5400 ∧
    parse_to_seconds (pyStr "45m") = some 2700 ∧
    parse_to_seconds (pyStr "900") = some 54000 ∧
    parse_to_seconds (pyStr "soon") = none ∧
    parse_to_seconds (pyInt (-5)) = none ∧
    (∀ (entries : List (String × PyVal)) (k : String) (v : PyVal),
        parse_to_seconds v = none →
        normalizeThresholds ((k, v) :: entries) = normalizeThresholds entries) ∧
    get_effective_stale_seconds []
      (load_per_type_stale (normalizeThresholds [("sensebox", pyStr "oops")]))
      300 "dev" (some "sensebox") = 300 ∧
    (∀ (avail : PyVal) (k : String) (v : Int),
        (k, v) ∈ (get_availability_config avail).per_type → 60 ≤ v) ∧
    (∀ (avail : PyVal) (k : String) (v : Int),
        (k, v) ∈ (get_availability_config avail).per_device → 60 ≤ v) ∧
    (∀ (avail : PyVal) (d : Int),
        (get_availability_config avail).default_stale_seconds = some d → 60 ≤ d) := by
  refine ⟨by decide, by decide, by decide, by decide, by decide,
    fun entries k v h => ?_, by decide, fun avail k v h => ?_, fun avail k v h => ?_,
    fun avail d h => ?_⟩
  · rw [normalizeThresholds, List.filterMap_cons, h, ← normalizeThresholds]
  · cases avail with
    | pyDict kvs => exact normalizeThresholds_floor h
    | pyInt n => simp [get_availability_config] at h
    | pyFloat q => simp [get_availability_config] at h
    | pyBool b => simp [get_availability_config] at h
    | pyStr s => simp [get_availability_config] at h
    | pyList xs => simp [get_availability_config] at h
    | pyNone => simp [get_availability_config] at h
  · cases avail with
    | pyDict kvs => exact normalizeThresholds_floor h
    | pyInt n => simp [get_availability_config] at h
    | pyFloat q => simp [get_availability_config] at h
    | pyBool b => simp [get_availability_config] at h
    | pyStr s => simp [get_availability_config] at h
    | pyList xs => simp [get_availability_config] at h
    | pyNone => simp [get_availability_config] at h
  · cases avail with
    | pyDict kvs =>
      simp only [get_availability_config] at h
      split at h
      · split at h
        · rw [Option.some.injEq] at h
          rw [← h]
          exact le_max_left _ _
        · exact absurd h (by simp)
      · exact absurd h (by simp)
    | pyInt n => simp [get_availability_config] at h
    | pyFloat q => simp [get_availability_config] at h
    | pyBool b => simp [get_availability_config] at h
    | pyStr s => simp [get_availability_config] at h
    | pyList xs => simp [get_availability_config] at h
    | pyNone => simp [get_availability_config] at h

/-- Claim C5 witness: the per-type floor bound applied at a concrete
availability section. -/
theorem C5_duration_parsing_witness : (60 : Int) ≤ 90 :=
  C5_duration_parsing.2.2.2.2.2.2.2.1
    (pyDict [("per_type", pyDict [("a", pyInt 90)])]) "a" 90 (by decide)

/-- Claim C6: on a specialized-sensor topic, a payload whose data
fields are all RSSI-like is dropped (with the default
`ignore_rssi_only = True`); the concrete `rssi: -80` payload parses to
`None`, while adding one allow-listed non-RSSI numeric field yields a
non-`None` result that contains only allow-listed fields; and the same
RSSI-only payload on a senseBox-shaped topic is not filtered. -/
theorem C6_rssi_only_filter :
    (∀ (pc : ParsingConfig) (known : List (String × List KnownDevice))
        (medians : List MedianEntity) (topic : String) (data : PyVal),
        pc.ignore_rssi_only = true →
        (∀ items, fieldsItems (getFields data pc.specialized_data_path) = some items →
            is_rssi_only_message items = true) →
        parse_specialized_message pc known medians topic data = none) ∧
    parse_message defaultParsingConfig knownC6 [] "sensoren/devT"
      (pyDict [("fields", pyDict [("rssi", pyInt (-80))])]) = none ∧
    parse_message defaultParsingConfig knownC6 [] "sensoren/devT"
      (pyDict [("fields", pyDict [("rssi", pyInt (-80)), ("temp", pyInt 21)])]) =
      some ⟨"devT", "specialized", "sensoren/devT", [("temp", pyInt 21)], false⟩ ∧
    parse_message defaultParsingConfig knownC6sb [] "senseBox:home/devS"
      (pyDict [("fields", pyDict [("rssi", pyInt (-80))])]) =
      some ⟨"devS", "sensebox", "senseBox:home/devS", [("rssi", pyInt (-80))], false⟩ := by
  refine ⟨fun pc known medians topic data h1 h2 => ?_, rfl, rfl, rfl⟩
  rw [parse_specialized_message]
  cases hex : extract_device_id_from_topic topic with
  | none => rfl
  | some did =>
    by_cases hdid : (did == "") = true
    · simp only [hdid, if_true]
    · simp only [hdid, Bool.false_eq_true, if_false]
      cases hf : fieldsItems (getFields data pc.specialized_data_path) with
      | none => rfl
      | some items =>
        have hrssi := h2 items hf
        simp only [h1, hrssi, Bool.and_self, if_true]

/-- Claim C6 witness: the RSSI-only rejection at a concrete payload
whose only key is `RSSI_dB` (matched case-insensitively). -/
theorem C6_rssi_only_filter_witness :
    parse_specialized_message defaultParsingConfig knownC6 [] "sensoren/devT"
      (pyDict [("fields", pyDict [("RSSI_dB", pyInt (-70))])]) = none :=
  C6_rssi_only_filter.1 defaultParsingConfig knownC6 [] "sensoren/devT"
    (pyDict [("fields", pyDict [("RSSI_dB", pyInt (-70))])]) rfl
    (fun items h => by rw [← Option.some.inj h]; decide)

/-- Claim C7: the first reconnect attempt after a disconnection waits
the initial delay (3 s); after `n` consecutive failed attempts the
delay is exactly `min (3 * (6/5)^n) 30` (the Python float `1.2` is
modelled as the exact rational 6/5), which is non-decreasing in `n`
and never exceeds the 30 s cap; and a successful reconnect resets the
delay to the initial value. -/
theorem C7_reconnect_backoff :
    delay_after_failures 0 = reconnect_initial_delay ∧
    (∀ n : Nat, delay_after_failures n =
        min (reconnect_initial_delay * reconnect_backoff_factor ^ n)
          reconnect_backoff_cap) ∧
    (∀ n : Nat, delay_after_failures n ≤ delay_after_failures (n + 1)) ∧
    (∀ n : Nat, delay_after_failures n ≤ reconnect_backoff_cap) ∧
    (∀ d : Rat, reconnect_success_update d = reconnect_initial_delay) := by
  refine ⟨rfl, delay_after_failures_closed, fun n => ?_, fun n => ?_, fun _ => rfl⟩
  · rw [delay_after_failures_closed, delay_after_failures_closed]
    exact min_le_min (mul_le_mul_of_nonneg_left
      (pow_le_pow_right₀ reconnect_factor_one_le (Nat.le_succ n))
      (by norm_num [reconnect_initial_delay])) le_rfl
  · rw [delay_after_failures_closed]
    exact min_le_right _ _

/-- Claim C8 (counterexample): the lifecycle event queue is created
with the default `maxsize = 0`, so enqueuing always grows it — it is
not bounded; and even the hypothetical full-queue branch of
`put_nowait`/`_queue_event` keeps the pending events and drops the
newly arrived one, not the oldest. -/
theorem C8_bounded_queue_counterexample :
    (¬ ∃ B : Nat, ∀ (q : List MqttEvent) (e : MqttEvent),
        (queue_event q e).length ≤ B) ∧
    put_nowait 1 [("connect", Option.none)] ("disconnect", some 1) =
      [("connect", Option.none)] := by
  constructor
  · rintro ⟨B, hB⟩
    have h := hB (List.replicate B ("connect", Option.none)) ("connect", Option.none)
    simp [queue_event, put_nowait, queue_full, event_queue_maxsize] at h
  · rfl

/-- Claim C8 (amended): the event queue is constructed without a bound
(`asyncio.Queue()` with `maxsize = 0`), every `_queue_event` call
appends the notification without blocking or dropping, and the
`QueueFull` handler — reachable only for a bounded queue — would leave
the queue unchanged, i.e. drop the newly arrived notification rather
than the oldest pending one. -/
theorem C8_event_queue_unbounded :
    event_queue_maxsize = 0 ∧
    (∀ (q : List MqttEvent) (e : MqttEvent), queue_event q e = q ++ [e]) ∧
    (∀ (m : Nat) (q : List MqttEvent) (e : MqttEvent),
        queue_full m q = true → put_nowait m q e = q) := by
  refine ⟨rfl, fun q e => rfl, fun m q e h => ?_⟩
  rw [put_nowait, if_pos h]

/-- Claim C8 witness: the full-queue branch at a concrete bounded
queue. -/
theorem C8_event_queue_unbounded_witness :
    put_nowait 1 [("connect", Option.none)] ("connect", Option.none) =
      [("connect", Option.none)] :=
  C8_event_queue_unbounded.2.2 1 [("connect", Option.none)] ("connect", Option.none)
    (by decide)

/-- Claim C9 (counterexample): `get_device_by_id` on a catalog hit is
not a read-only projection — the found device record is mutated in
place (`device["type"] = device_type`), so the `known_devices` section
differs after the query. -/
theorem C9_mutation_counterexample :
    (get_device_by_id knownRawEx "dev1").2 =
      [("senseBox", [[("id", pyStr "dev1"), ("name", pyStr "Device 1"),
        ("type", pyStr "senseBox")]])] ∧
    (get_device_by_id knownRawEx "dev1").2 ≠ knownRawEx := by
  refine ⟨rfl, ?_⟩
  intro h
  rw [show (get_device_by_id knownRawEx "dev1").2 =
      [("senseBox", [[("id", pyStr "dev1"), ("name", pyStr "Device 1"),
        ("type", pyStr "senseBox")]])] from rfl] at h
  have h2 := congrArg (fun l : KnownRaw => ((l.headD ("", [])).2.headD []).length) h
  simp [knownRawEx] at h2

/-- Claim C9 (amended): catalog queries return `None`/empty rather
than raising when nothing is found, and they leave the catalog
unchanged except for `get_device_by_id` on a `known_devices` hit,
which writes the category name into the `type` key of the found
device record; `get_median_by_id` and `get_devices_by_type` operate on
copies or plain projections and never modify the catalog. -/
theorem C9_catalog_queries :
    (∀ (known : KnownRaw) (device_id : String),
        tag_find_in_known device_id known = none →
        (get_device_by_id known device_id).2 = known) ∧
    (∀ (known : KnownRaw) (device_id : String),
        tag_find_in_known device_id known = none →
        (∀ m ∈ get_median_entities_raw known,
            rawGetStr m "id" ≠ some device_id ∧
            rawGetStr m "location" ≠ some device_id) →
        get_device_by_id known device_id = (none, known)) ∧
    (∀ (known : KnownRaw) (median_id : String),
        (∀ m ∈ get_median_entities_raw known, rawGetStr m "id" ≠ some median_id) →
        get_median_by_id known median_id = none) ∧
    (∀ (known : KnownRaw) (t : String), known.lookup t = none →
        get_devices_by_type known t = []) ∧
    (∀ (dt device_id : String) (devs : List RawDevice) (f : RawDevice)
        (devs' : List RawDevice),
        tag_find_in_list dt device_id devs = some (f, devs') →
        f.lookup "type" = some (pyStr dt)) := by
  refine ⟨fun known device_id h => ?_, fun known device_id h hm => ?_,
    fun known median_id hm => ?_, fun known t h => ?_, tag_find_in_list_type⟩
  · rw [get_device_by_id]
    simp only [h]
    split <;> rfl
  · rw [get_device_by_id]
    simp only [h]
    have hf : (get_median_entities_raw known).find? (fun m =>
        rawGetStr m "id" == some device_id ||
        rawGetStr m "location" == some device_id) = none := by
      rw [List.find?_eq_none]
      intro m hmem
      have := hm m hmem
      simp [this.1, this.2]
    simp only [hf]
  · rw [get_median_by_id]
    rw [List.find?_eq_none.mpr]
    intro m hmem
    simp [hm m hmem]
  · rw [get_devices_by_type, h]
    rfl

/-- Claim C9 witness: an unknown category projects to the empty list
without touching the catalog. -/
theorem C9_catalog_queries_witness :
    get_devices_by_type knownRawEx "Unknown" = [] :=
  C9_catalog_queries.2.2.2.1 knownRawEx "Unknown" rfl

/-- Claim C10: JSON boolean values pass the
`isinstance(value, (int, float))` field filter (Python `bool` is a
subclass of `int`), so an allow-listed boolean field is kept in the
returned `sensor_data` — numerically `True` reads as 1 and `False` as
0 — while an allow-listed string field is dropped; this holds on both
the specialized and the senseBox parse paths, even though booleans are
not numeric JSON values. -/
theorem C10_boolean_values_accepted :
    (∀ b : Bool, isinstance_int_float (pyBool b) = true) ∧
    (∀ b : Bool, isNumericJson (pyBool b) = false) ∧
    pyNumericValue (pyBool true) = some 1 ∧
    pyNumericValue (pyBool false) = some 0 ∧
    (∀ (b : Bool) (s : String),
        parse_message defaultParsingConfig knownC10 [] "sensoren/devF"
          (pyDict [("fields", pyDict [("flag", pyBool b), ("note", pyStr s)])]) =
        some ⟨"devF", "specialized", "sensoren/devF", [("flag", pyBool b)], false⟩) ∧
    (∀ b : Bool,
        parse_message defaultParsingConfig knownBool [] "senseBox:home/devB"
          (pyDict [("fields", pyDict [("temp", pyBool b)])]) =
        some ⟨"devB", "sensebox", "senseBox:home/devB", [("temp", pyBool b)], false⟩) :=
  ⟨fun _ => rfl, fun _ => rfl, rfl, rfl, fun _ _ => rfl, fun _ => rfl⟩

end SensorBridge
